import Mathlib

/-!
Shallow embedding of the discretization-mapping layer of the ODL
repository (`odl/discr/discr_mappings.py`) and of the CUDA-backed
vector-space layer (`RL/space/cuda.py`), together with theorems checking
the natural-language specification against the code.

Real scalars are modelled by `ℚ` (the code works with exact grid
coordinates and the properties at stake are order/equality properties,
which `ℚ` settles decidably).
-/

namespace ODL

/-- Flattening order of multi-dimensional grid data: `C` (row-major,
last axis varies fastest) or `F` (column-major, first axis varies
fastest), as in `numpy.ravel(order=...)`. -/
inductive DataOrder where
  | C : DataOrder
  | F : DataOrder
deriving DecidableEq

/-- Enumeration of all multi-indices of an array of the given shape in
the given flattening order.  For `C` the first axis is the slowest
(outermost loop), for `F` the first axis is the fastest.  This models
the traversal order used both by `numpy.ravel(order)` and by
`TensorGrid.points(order)`. -/
def multiIndices : DataOrder → List Nat → List (List Nat)
  | _, [] => [[]]
  | .C, n :: ns => (List.range n).flatMap (fun i => (multiIndices .C ns).map (i :: ·))
  | .F, n :: ns => (multiIndices .F ns).flatMap (fun rest => (List.range n).map (· :: rest))

/-- Flat position of a multi-index in an array of the given shape
flattened in the given order (`C`: row-major strides, `F`: column-major
strides).  Models `numpy.reshape(shape, order)` index arithmetic. -/
def flatIndex : DataOrder → List Nat → List Nat → Nat
  | .C, _ :: ns, i :: is => i * ns.prod + flatIndex .C ns is
  | .F, n :: ns, i :: is => i + n * flatIndex .F ns is
  | _, _, _ => 0

/-- The grid point of a tensor grid (given by its per-axis coordinate
lists) at a multi-index: the `k`-th coordinate is the `idx k`-th entry
of axis `k`. -/
def gridPoint (axes : List (List ℚ)) (idx : List Nat) : List ℚ :=
  List.zipWith (fun ax i => ax.getD i 0) axes idx

/-- Modelled from the spec: `TensorGrid.points(order)` (the grid class
itself is outside the specified files).  Per §6, the grid abstraction
provides "point-list generation in a chosen flattening order": the list
of all grid points, enumerated in the given order. -/
def gridPoints (axes : List (List ℚ)) (ord : DataOrder) : List (List ℚ) :=
  (multiIndices ord (axes.map List.length)).map (gridPoint axes)

/-- The three vectorization modes a function object can declare
(`x.vectorization` in the source). -/
inductive Vect where
  | meshgrid : Vect
  | array : Vect
  | pointwise : Vect
deriving DecidableEq

/-- `GridCollocation._call` (discr_mappings.py:260-271): evaluate the
function at every grid point and flatten in the configured order.
  * meshgrid: `x(self.grid.meshgrid()).ravel(order=self.order)` — a
    meshgrid-vectorized function applied to the sparse coordinate
    meshgrid yields the array `A` with `A[idx] = f(gridPoint idx)`;
    ravelling enumerates its entries with multi-indices in the given
    order.
  * array: `x(self.grid.points(order=self.order))` — the function
    applied row-wise to the point list.
  * pointwise fallback: a loop assigning `values[i] = x(point_i)` over
    the same point list. -/
def collocationCall (f : List ℚ → ℚ) (v : Vect) (axes : List (List ℚ))
    (ord : DataOrder) : List ℚ :=
  match v with
  | .meshgrid => (multiIndices ord (axes.map List.length)).map (fun idx => f (gridPoint axes idx))
  | .array => (gridPoints axes ord).map f
  | .pointwise => (gridPoints axes ord).map f

/-! ### Nearest-neighbor interpolation
(`_NearestPointwiseInterpolator`, discr_mappings.py:468-567) -/

/-- `numpy.searchsorted(grid, x)` with the default `side='left'` on an
ascending array: the leftmost insertion index, i.e. the index of the
first element `≥ x`, or the length if every element is `< x`. -/
def searchsortedLeft : List ℚ → ℚ → Nat
  | [], _ => 0
  | g :: gs, x => if x ≤ g then 0 else searchsortedLeft gs x + 1

/-- One axis step of `_find_indices` (discr_mappings.py:560-563):
`i = np.searchsorted(grid, x) - 1`, then clamp with `i[i < 0] = 0` and
`i[i > grid.size - 2] = grid.size - 2`.  The intermediate value is an
integer, as in the source ( `-1` before clamping). -/
def findIndex (grid : List ℚ) (x : ℚ) : ℤ :=
  let i : ℤ := (searchsortedLeft grid x : ℤ) - 1
  let i1 : ℤ := if i < 0 then 0 else i
  if i1 > (grid.length : ℤ) - 2 then (grid.length : ℤ) - 2 else i1

/-- The per-axis fractional distance of `_find_indices`
(discr_mappings.py:565-566): `(x - grid[i]) / (grid[i+1] - grid[i])`
at the clamped index.  For axes with at least two points the clamped
index is nonnegative (see `findIndex_bounds`), so `Int.toNat`
is the identity on it. -/
def normDistance (grid : List ℚ) (x : ℚ) : ℚ :=
  let i := (findIndex grid x).toNat
  (x - grid.getD i 0) / (grid.getD (i + 1) 0 - grid.getD i 0)

/-- The per-axis index selected by `_evaluate_nearest`
(discr_mappings.py:542-551): `np.where(yi <= .5, i, i + 1)` — the lower
bracket index when the fractional distance is at most one half, the
upper one otherwise. -/
def nearestIndex (grid : List ℚ) (x : ℚ) : Nat :=
  let i := (findIndex grid x).toNat
  if normDistance grid x ≤ 1 / 2 then i else i + 1

/-- The whole of `_find_indices` (discr_mappings.py:553-567): the loop
`for x, grid in zip(xi, self.grid)` collecting the per-axis clamped
bracket indices of one query point. -/
def findIndices (axes : List (List ℚ)) (query : List ℚ) : List ℤ :=
  List.zipWith findIndex axes query

/-- Value of the nearest-neighbor interpolant at one query point:
the flat data vector is reshaped to the grid shape in the mapping's
flattening order (`x.data.reshape(self.grid.shape, order=self.order)`,
discr_mappings.py:379) and indexed with the per-axis indices chosen by
`_find_indices` / `_evaluate_nearest` (`self.values[idx_res]`). -/
def interpNearest (axes : List (List ℚ)) (data : List ℚ) (ord : DataOrder)
    (query : List ℚ) : ℚ :=
  data.getD (flatIndex ord (axes.map List.length) (List.zipWith nearestIndex axes query)) 0

/-! ### Construction of discretization mappings
(`FunctionSetMapping.__init__`, discr_mappings.py:50-120, and
`LinearInterpolation`, discr_mappings.py:409-465) -/

/-- Python-level error outcomes raised by the embedded code:
`ValueError`, `TypeError`, `NotImplementedError`, and fatal failures
surfaced by the native device library (not pre-checked on the host). -/
inductive PErr where
  | valueError (msg : String)
  | typeError (msg : String)
  | notImplemented
  | fatalLibrary (msg : String)
deriving DecidableEq

/-- The scalar field of a function space or data space (`fset.field`,
`dspace.field`); only its identity test matters here. -/
inductive RField where
  | real
  | complex
deriving DecidableEq

/-- The properties of the `fset` argument that
`FunctionSetMapping.__init__` consults: its `isinstance` facts, its
domain (an interval product, given by per-axis bounds) and its field. -/
structure FSetArg where
  isFunctionSet : Bool
  isFunctionSpace : Bool
  domainIsIntervalProd : Bool
  domain : List (ℚ × ℚ)
  field : RField
deriving DecidableEq

/-- The properties of the `grid` argument consulted at construction:
the `isinstance(·, TensorGrid)` fact and the per-axis coordinate
lists. -/
structure GridArg where
  isTensorGrid : Bool
  axes : List (List ℚ)
deriving DecidableEq

/-- The properties of the `dspace` argument consulted at construction:
`isinstance` facts, its size and its field. -/
structure DspaceArg where
  isNtuples : Bool
  isFnBase : Bool
  size : Nat
  field : RField
deriving DecidableEq

/-- `grid.ntotal`: the total number of grid points, the product of the
per-axis point counts. -/
def gridNtotal (axes : List (List ℚ)) : Nat :=
  (axes.map List.length).prod

/-- Modelled from the spec: `fset.domain.contains_set(grid)` (the
`IntervalProd` class is outside the specified files).  Per §4.3/§3 the
check is that "grid is geometrically contained in the function set's
domain": the grid and the interval product have the same number of
axes and every coordinate of each axis lies within that axis's
bounds. -/
def containsSet (dom : List (ℚ × ℚ)) (axes : List (List ℚ)) : Bool :=
  decide (dom.length = axes.length) &&
    (List.zip dom axes).all
      (fun p => p.2.all (fun c => decide (p.1.1 ≤ c) && decide (c ≤ p.1.2)))

/-- A fully constructed `FunctionSetMapping`: the validated ingredients
together with the normalized order string stored in `self._order` and
the domain/range assignment made from the map type. -/
structure Mapping where
  mapTypeStr : String
  fset : FSetArg
  grid : GridArg
  dspace : DspaceArg
  ordStr : String
  isLinear : Bool
deriving DecidableEq

/-- The value `FunctionSetMapping.__init__` leaves behind when every
check passes: map type and order are stored normalized (lower/upper
case respectively, discr_mappings.py:75,101). -/
def mkMapping (mapType : String) (fset : FSetArg) (grid : GridArg)
    (dspace : DspaceArg) (order : String) (linear : Bool) : Mapping :=
  ⟨mapType.toLower, fset, grid, dspace, order.toUpper, linear⟩

/-- `FunctionSetMapping.__init__` (discr_mappings.py:50-120) as a
fallible constructor: the checks run eagerly in source order and the
first failing one raises; only when all pass is the object returned
(a Python constructor that raises returns nothing to the caller). -/
def fsmInit (mapType : String) (fset : FSetArg) (grid : GridArg)
    (dspace : DspaceArg) (order : String) (linear : Bool) : Except PErr Mapping :=
  if ¬ (mapType.toLower = "restriction" ∨ mapType.toLower = "extension") then
    .error (.valueError "mapping type not understood")
  else if ¬ fset.isFunctionSet then
    .error (.typeError "function set is not a FunctionSet instance")
  else if ¬ grid.isTensorGrid then
    .error (.typeError "grid is not a TensorGrid instance")
  else if ¬ dspace.isNtuples then
    .error (.typeError "data space is not an NtuplesBase instance")
  else if ¬ containsSet fset.domain grid.axes then
    .error (.valueError "grid not contained in the domain of the function set")
  else if ¬ dspace.size = gridNtotal grid.axes then
    .error (.valueError "size of the data space not equal to the total number of grid points")
  else if ¬ (order.toUpper = "C" ∨ order.toUpper = "F") then
    .error (.valueError "ordering not understood")
  else if linear ∧ ¬ fset.isFunctionSpace then
    .error (.typeError "function space is not a FunctionSpace instance")
  else if linear ∧ ¬ dspace.isFnBase then
    .error (.typeError "data space is not an FnBase instance")
  else if linear ∧ ¬ fset.field = dspace.field then
    .error (.valueError "fields of the function space and the data space are not equal")
  else
    .ok (mkMapping mapType fset grid dspace order linear)

/-- The observable outcome of a constructor run: the error of the
first violated precondition when there is one, otherwise the fully
constructed mapping — and nothing in between. -/
def outcomeOf (o : Option PErr) (m : Mapping) : Except PErr Mapping :=
  match o with
  | some e => Except.error e
  | none => Except.ok m

/-- The specification's reading of construction (§4.3/§7): the eight
preconditions in their fixed listed order — map kind, function set
kind, grid kind, discrete space kind, domain containment, size
equality, flattening order, linear-case checks — with the first
violated one determining the error.  Written from the spec's list, to
be compared with `fsmInit`, which is written from the code. -/
def firstViolatedPrecondition (mapType : String) (fset : FSetArg) (grid : GridArg)
    (dspace : DspaceArg) (order : String) (linear : Bool) : Option PErr :=
  if ¬ (mapType.toLower = "restriction" ∨ mapType.toLower = "extension") then
    some (.valueError "mapping type not understood")
  else if ¬ fset.isFunctionSet then
    some (.typeError "function set is not a FunctionSet instance")
  else if ¬ grid.isTensorGrid then
    some (.typeError "grid is not a TensorGrid instance")
  else if ¬ dspace.isNtuples then
    some (.typeError "data space is not an NtuplesBase instance")
  else if ¬ containsSet fset.domain grid.axes then
    some (.valueError "grid not contained in the domain of the function set")
  else if ¬ dspace.size = gridNtotal grid.axes then
    some (.valueError "size of the data space not equal to the total number of grid points")
  else if ¬ (order.toUpper = "C" ∨ order.toUpper = "F") then
    some (.valueError "ordering not understood")
  else if linear ∧ ¬ fset.isFunctionSpace then
    some (.typeError "function space is not a FunctionSpace instance")
  else if linear ∧ ¬ dspace.isFnBase then
    some (.typeError "data space is not an FnBase instance")
  else if linear ∧ ¬ fset.field = dspace.field then
    some (.valueError "fields of the function space and the data space are not equal")
  else
    none

/-- `LinearInterpolation.__init__` (discr_mappings.py:413-443).  After
its two own checks it executes
`super().__init__(self, 'extension', ip_fspace, grid, dspace, order, linear=True)`
(line 442): `self` is passed as an extra first positional argument, so
every parameter of `FunctionSetMapping.__init__` is shifted by one —
`map_type` receives the `LinearInterpolation` object itself (whose
`str(...)` is `strSelf`), `fset` receives the string `'extension'`
(not a `FunctionSet`, so all its isinstance flags are false), `grid`
receives the function space (not a `TensorGrid`), `dspace` receives
the grid (not an `NtuplesBase`) and `order` receives the data space.
The payload fields of those shifted arguments are never consulted:
the map-type check or, at the latest, the function-set isinstance
check fails first. -/
def linearInterpolationInit (strSelf : String) (fspace : FSetArg) (grid : GridArg)
    (dspace : DspaceArg) (order : String) : Except PErr Mapping :=
  if ¬ fspace.isFunctionSpace then
    .error (.typeError "function space is not a FunctionSpace instance")
  else if ¬ fspace.domainIsIntervalProd then
    .error (.typeError "function space domain is not an IntervalProd instance")
  else
    fsmInit strSelf ⟨false, false, false, [], .real⟩ ⟨false, grid.axes⟩
      ⟨false, false, dspace.size, dspace.field⟩ order true

/-- `LinearInterpolation._call` (discr_mappings.py:447-465): raises
`NotImplementedError` unconditionally. -/
def linearInterpolationCall (_x : List ℚ) : Except PErr (List ℚ → ℚ) :=
  .error .notImplemented

/-! ### CUDA-backed vector spaces (`RL/space/cuda.py`) -/

/-- The supported scalar kinds, the two keys of `CudaEN.dtypes`
(cuda.py:45-46): `np.float32` and `np.uint8`. -/
inductive CudaDtype where
  | float32
  | uint8
deriving DecidableEq

/-- The concrete Python class of a space object: `CudaEN`
(cuda.py:44) or its subclass `CudaRN` (cuda.py:466).  Every `CudaRN`
is an instance of `CudaEN`; only `CudaRN` objects are instances of
`CudaRN`. -/
inductive CudaClass where
  | EN
  | RN
deriving DecidableEq

/-- A device vector space: concrete class, dimension `n` and scalar
kind (`self._n`, `self._dtype`); the field is always the reals. -/
structure CudaSpace where
  cls : CudaClass
  n : Nat
  dtype : CudaDtype
deriving DecidableEq

/-- `CudaEN.__init__` (cuda.py:62-72): rejects a non-positive `n` with
`TypeError` (the `Integral` test is carried by the `ℤ` type here) and
looks the dtype up in `CudaEN.dtypes` — both modelled kinds are
present in the dict, so that lookup never fails for them.  `cls` is
the concrete class of the object under construction. -/
def cudaENInit (cls : CudaClass) (n : ℤ) (dtype : CudaDtype) : Except PErr CudaSpace :=
  if n < 1 then .error (.typeError "n has to be a positive integer")
  else .ok ⟨cls, n.toNat, dtype⟩

/-- `CudaRN.__init__` (cuda.py:478-479): delegates to `CudaEN.__init__`
with dtype fixed to `np.float32`. -/
def cudaRNInit (n : ℤ) : Except PErr CudaSpace :=
  cudaENInit .RN n .float32

/-- The underlying data of a device vector, by provenance: a fresh
uninitialized device buffer, a non-owning wrap of an external device
pointer, or a buffer copied from host data. -/
inductive CudaVecData where
  | uninit (n : Nat)
  | fromPointer (ptr : Nat) (n : Nat)
  | copied (d : List ℚ)
deriving DecidableEq

/-- A device vector: its owning space and its device data. -/
structure CudaVec where
  space : CudaSpace
  data : CudaVecData
deriving DecidableEq

/-- `CudaEN.element` (cuda.py:74-124): with neither argument, a fresh
uninitialized buffer; with only `data_ptr`, a non-owning wrap; with
only `data`, a fresh buffer assigned via `elem[:] = data`, whose size
check happens inside the device library (cuda.py:460: "Size checking
is performed in c++") and surfaces as a fatal library failure on
mismatch; with both, `TypeError("Cannot provide both data and
data_ptr")` — the case the spec's taxonomy (§7) files under
`InvalidArgument` (simultaneous required arguments). -/
def CudaSpace.element (s : CudaSpace) (data : Option (List ℚ))
    (dataPtr : Option Nat) : Except PErr CudaVec :=
  match data, dataPtr with
  | none, none => .ok ⟨s, .uninit s.n⟩
  | none, some p => .ok ⟨s, .fromPointer p s.n⟩
  | some d, none =>
      if d.length = s.n then .ok ⟨s, .copied d⟩
      else .error (.fatalLibrary "setSlice size mismatch")
  | some _, some _ => .error (.typeError "Cannot provide both data and data_ptr")

/-- The `equals` method actually dispatched for a space, by its
concrete class.  `CudaEN.equals` (cuda.py:266):
`isinstance(other, CudaEN) and self.n == other.n and self._dtype == other._dtype`
— the isinstance test holds for both classes.  `CudaRN.equals`
(cuda.py:657): `isinstance(other, CudaRN) and self._n == other._n`
— the isinstance test holds only for `CudaRN` objects, and the dtype
is not compared. -/
def CudaSpace.equals (s other : CudaSpace) : Bool :=
  match s.cls with
  | .EN => decide (s.n = other.n) && decide (s.dtype = other.dtype)
  | .RN => decide (other.cls = .RN) && decide (s.n = other.n)

/-- The class invariant established by the constructors: a `CudaRN`
object always has dtype `np.float32` (cuda.py:479). -/
def CudaSpace.wf (s : CudaSpace) : Prop :=
  s.cls = .RN → s.dtype = .float32

/-- `CudaEN.Vector.itemsize` (cuda.py:326-339): `return 4`, with the
source comment "Currently hardcoded to float" — the space's dtype is
not consulted. -/
def CudaVec.itemsize (_v : CudaVec) : Nat := 4

/-! ### Lemmas about the axis-bracketing search -/

theorem searchsortedLeft_le (l : List ℚ) (x : ℚ) :
    searchsortedLeft l x ≤ l.length := by
  induction l with
  | nil => simp [searchsortedLeft]
  | cons g gs ih =>
    simp only [searchsortedLeft, List.length_cons]
    split
    · omega
    · omega

theorem searchsortedLeft_eq_length (l : List ℚ) (x : ℚ) (h : ∀ g ∈ l, g < x) :
    searchsortedLeft l x = l.length := by
  induction l with
  | nil => simp [searchsortedLeft]
  | cons g gs ih =>
    have hg : g < x := h g (by simp)
    simp only [searchsortedLeft, List.length_cons]
    rw [if_neg (not_le.mpr hg), ih (fun b hb => h b (by simp [hb]))]

theorem searchsortedLeft_getD (l : List ℚ) (hpw : l.Pairwise (· < ·)) (j : Nat)
    (hj : j < l.length) : searchsortedLeft l (l.getD j 0) = j := by
  induction l generalizing j with
  | nil => simp at hj
  | cons a t ih =>
    obtain ⟨ha, hpt⟩ := List.pairwise_cons.mp hpw
    cases j with
    | zero => simp [searchsortedLeft]
    | succ k =>
      have hk : k < t.length := by simpa using hj
      have hlt : a < t.getD k 0 := by
        have hmem : t.getD k 0 ∈ t := by
          rw [List.getD_eq_getElem t 0 hk]
          exact List.getElem_mem hk
        exact ha _ hmem
      simp only [List.getD_cons_succ, searchsortedLeft]
      rw [if_neg (not_le.mpr hlt), ih hpt k hk]

theorem getD_lt_getD (l : List ℚ) (hpw : l.Pairwise (· < ·)) {i j : Nat}
    (hij : i < j) (hj : j < l.length) : l.getD i 0 < l.getD j 0 := by
  have hi : i < l.length := lt_trans hij hj
  rw [List.getD_eq_getElem l 0 hi, List.getD_eq_getElem l 0 hj]
  exact List.pairwise_iff_getElem.mp hpw i j hi hj hij

theorem findIndex_bounds (l : List ℚ) (x : ℚ) (hlen : 2 ≤ l.length) :
    0 ≤ findIndex l x ∧ findIndex l x ≤ (l.length : ℤ) - 2 := by
  have h1 := searchsortedLeft_le l x
  simp only [findIndex]
  split_ifs <;> omega

theorem findIndex_toNat_le (l : List ℚ) (x : ℚ) (hlen : 2 ≤ l.length) :
    (findIndex l x).toNat + 1 ≤ l.length - 1 := by
  have := findIndex_bounds l x hlen
  omega

theorem grid_step_pos (l : List ℚ) (hpw : l.Pairwise (· < ·)) (hlen : 2 ≤ l.length)
    (x : ℚ) :
    l.getD ((findIndex l x).toNat) 0 < l.getD ((findIndex l x).toNat + 1) 0 := by
  have h := findIndex_toNat_le l x hlen
  exact getD_lt_getD l hpw (Nat.lt_succ_self _) (by omega)

theorem findIndex_getD_zero (l : List ℚ) (hpw : l.Pairwise (· < ·))
    (hlen : 2 ≤ l.length) : findIndex l (l.getD 0 0) = 0 := by
  have hs := searchsortedLeft_getD l hpw 0 (by omega)
  simp only [findIndex, hs]
  split_ifs <;> omega

theorem findIndex_getD_succ (l : List ℚ) (hpw : l.Pairwise (· < ·)) {k : Nat}
    (hk : k + 1 < l.length) : findIndex l (l.getD (k + 1) 0) = (k : ℤ) := by
  have hs := searchsortedLeft_getD l hpw (k + 1) hk
  simp only [findIndex, hs]
  split_ifs <;> omega

theorem nearestIndex_getD (l : List ℚ) (hpw : l.Pairwise (· < ·))
    (hlen : 2 ≤ l.length) {j : Nat} (hj : j < l.length) :
    nearestIndex l (l.getD j 0) = j := by
  cases j with
  | zero =>
    have hfi := findIndex_getD_zero l hpw hlen
    have hd : normDistance l (l.getD 0 0) = 0 := by
      simp only [normDistance]
      rw [hfi]
      simp
    simp only [nearestIndex]
    rw [hd, hfi]
    norm_num
  | succ k =>
    have hfi := findIndex_getD_succ l hpw hj
    have hden : l.getD k 0 < l.getD (k + 1) 0 :=
      getD_lt_getD l hpw (Nat.lt_succ_self k) hj
    have hd : normDistance l (l.getD (k + 1) 0) = 1 := by
      simp only [normDistance]
      rw [hfi]
      simp only [Int.toNat_natCast]
      exact div_self (by linarith)
    simp only [nearestIndex]
    rw [hd, hfi]
    rw [if_neg (by norm_num)]
    simp

theorem nearestIndex_of_gt_last (l : List ℚ) (hpw : l.Pairwise (· < ·))
    (hlen : 2 ≤ l.length) {x : ℚ} (hx : l.getD (l.length - 1) 0 < x) :
    nearestIndex l x = l.length - 1 := by
  have hall : ∀ g ∈ l, g < x := by
    intro g hg
    obtain ⟨k, hk, rfl⟩ := List.getElem_of_mem hg
    have hle : l[k] ≤ l.getD (l.length - 1) 0 := by
      rcases Nat.lt_or_ge k (l.length - 1) with hlt | hge
      · exact le_of_lt (by
          rw [← List.getD_eq_getElem l 0 hk]
          exact getD_lt_getD l hpw hlt (by omega))
      · have hke : k = l.length - 1 := by omega
        subst hke
        rw [List.getD_eq_getElem l 0 (by omega)]
    exact lt_of_le_of_lt hle hx
  have hs := searchsortedLeft_eq_length l x hall
  have hfi : findIndex l x = (l.length : ℤ) - 2 := by
    simp only [findIndex, hs]
    split_ifs <;> omega
  have htn : (findIndex l x).toNat = l.length - 2 := by omega
  have hsucc : l.length - 2 + 1 = l.length - 1 := by omega
  have hden : l.getD (l.length - 2) 0 < l.getD (l.length - 1) 0 := by
    refine getD_lt_getD l hpw (by omega) (by omega)
  have hd : 1 < normDistance l x := by
    simp only [normDistance, htn, hsucc]
    rw [one_lt_div (by linarith)]
    have : l.getD (l.length - 1) 0 < x := hx
    linarith
  simp only [nearestIndex, htn, hsucc]
  rw [if_neg (by linarith)]

theorem zipWith_nearestIndex_getD (axes : List (List ℚ)) (js : List Nat)
    (hlen : js.length = axes.length)
    (h : ∀ p ∈ List.zip axes js,
      p.1.Pairwise (· < ·) ∧ 2 ≤ p.1.length ∧ p.2 < p.1.length) :
    List.zipWith nearestIndex axes (List.zipWith (fun ax j => ax.getD j 0) axes js) = js := by
  induction axes generalizing js with
  | nil =>
    cases js with
    | nil => rfl
    | cons j jt => simp at hlen
  | cons a as ih =>
    cases js with
    | nil => simp at hlen
    | cons j jt =>
      obtain ⟨h1, h2, h3⟩ := h (a, j) (by simp)
      simp only [List.zipWith_cons_cons]
      rw [nearestIndex_getD a h1 h2 h3,
        ih jt (by simpa using hlen) (fun p hp => h p (by simp [hp]))]

theorem abs_dist_of_fraction (a b x : ℚ) (hab : a < b) :
    ((x - a) / (b - a) < 1 / 2 → |x - a| < |x - b|) ∧
    (1 / 2 < (x - a) / (b - a) → |x - b| < |x - a|) := by
  have hba : 0 < b - a := by linarith
  constructor
  · intro h
    have h2 : x - a < 1 / 2 * (b - a) := (div_lt_iff₀ hba).mp h
    rcases le_or_lt x a with h1 | h1
    · rw [abs_of_nonpos (by linarith), abs_of_nonpos (by linarith)]
      linarith
    · rw [abs_of_pos (by linarith), abs_of_neg (by linarith)]
      linarith
  · intro h
    have h2 : 1 / 2 * (b - a) < x - a := (lt_div_iff₀ hba).mp h
    rcases le_or_lt x b with h1 | h1
    · rw [abs_of_nonpos (by linarith), abs_of_pos (by linarith)]
      linarith
    · rw [abs_of_pos (by linarith), abs_of_pos (by linarith)]
      linarith

/-! ### Claim theorems -/

/-- C1: for the grid with axes `[1,2]` and `[3,4,5]` and
`f(x1,x2) = x1 - x2` evaluated with meshgrid vectorization, the
collocation operator returns `[-2,-3,-4,-1,-2,-3]` under `'C'` order
and `[-2,-1,-3,-2,-4,-3]` under `'F'` order; and in general (for every
vectorization strategy) every component of the collocation result
equals the function's value at the corresponding grid point under the
configured flattening order. -/
theorem grid_collocation_evaluates_at_grid_points :
    collocationCall (fun p => p.getD 0 0 - p.getD 1 0) .meshgrid [[1, 2], [3, 4, 5]] .C
        = [-2, -3, -4, -1, -2, -3] ∧
    collocationCall (fun p => p.getD 0 0 - p.getD 1 0) .meshgrid [[1, 2], [3, 4, 5]] .F
        = [-2, -1, -3, -2, -4, -3] ∧
    ∀ (f : List ℚ → ℚ) (v : Vect) (axes : List (List ℚ)) (ord : DataOrder) (k : Nat),
      k < (gridPoints axes ord).length →
      (collocationCall f v axes ord).getD k 0 = f ((gridPoints axes ord).getD k []) := by
  refine ⟨by norm_num [collocationCall, multiIndices, gridPoint, List.range_succ],
          by norm_num [collocationCall, multiIndices, gridPoint, List.range_succ], ?_⟩
  intro f v axes ord k hk
  have key : ∀ pts : List (List ℚ), k < pts.length →
      (pts.map f).getD k 0 = f (pts.getD k []) := by
    intro pts hkp
    rw [List.getD_eq_getElem _ _ (by simpa using hkp), List.getElem_map,
      List.getD_eq_getElem _ _ hkp]
  cases v with
  | meshgrid =>
    have hrw : collocationCall f .meshgrid axes ord = (gridPoints axes ord).map f := by
      simp only [collocationCall, gridPoints, List.map_map]
      rfl
    rw [hrw]
    exact key _ hk
  | array =>
    simp only [collocationCall]
    exact key _ hk
  | pointwise =>
    simp only [collocationCall]
    exact key _ hk

/-- Witness for C1: the general component identity applied at the
example grid, `f = first coordinate`, array vectorization, `k = 2`. -/
theorem grid_collocation_evaluates_at_grid_points_witness :
    2 < (gridPoints [[1, 2], [3, 4, 5]] .C).length ∧
    (collocationCall (fun p => p.getD 0 0) .array [[1, 2], [3, 4, 5]] .C).getD 2 0
      = (fun p => p.getD 0 0) ((gridPoints [[1, 2], [3, 4, 5]] .C).getD 2 []) :=
  ⟨by decide,
   grid_collocation_evaluates_at_grid_points.2.2 (fun p => p.getD 0 0) .array
     [[1, 2], [3, 4, 5]] .C 2 (by decide)⟩

/-- C3: in nearest-neighbor interpolation, a query whose fractional
position in its bracketing interval is exactly one half selects the
lower endpoint; every other fractional position selects the strictly
nearer endpoint. -/
theorem nearest_interp_rounds_to_nearer_tie_lower (grid : List ℚ) (x : ℚ)
    (hpw : grid.Pairwise (· < ·)) (hlen : 2 ≤ grid.length) :
    (normDistance grid x = 1 / 2 → nearestIndex grid x = (findIndex grid x).toNat) ∧
    (normDistance grid x < 1 / 2 →
      nearestIndex grid x = (findIndex grid x).toNat ∧
      |x - grid.getD (findIndex grid x).toNat 0| <
        |x - grid.getD ((findIndex grid x).toNat + 1) 0|) ∧
    (1 / 2 < normDistance grid x →
      nearestIndex grid x = (findIndex grid x).toNat + 1 ∧
      |x - grid.getD ((findIndex grid x).toNat + 1) 0| <
        |x - grid.getD (findIndex grid x).toNat 0|) := by
  have hden : grid.getD (findIndex grid x).toNat 0 <
      grid.getD ((findIndex grid x).toNat + 1) 0 := grid_step_pos grid hpw hlen x
  have habs := abs_dist_of_fraction (grid.getD (findIndex grid x).toNat 0)
    (grid.getD ((findIndex grid x).toNat + 1) 0) x hden
  have hd : normDistance grid x =
      (x - grid.getD (findIndex grid x).toNat 0) /
        (grid.getD ((findIndex grid x).toNat + 1) 0 - grid.getD (findIndex grid x).toNat 0) := rfl
  have hne : nearestIndex grid x =
      if normDistance grid x ≤ 1 / 2 then (findIndex grid x).toNat
      else (findIndex grid x).toNat + 1 := rfl
  refine ⟨fun h => ?_, fun h => ⟨?_, ?_⟩, fun h => ⟨?_, ?_⟩⟩
  · rw [hne, if_pos (le_of_eq h)]
  · rw [hne, if_pos (le_of_lt h)]
  · exact habs.1 (hd ▸ h)
  · rw [hne, if_neg (not_le.mpr h)]
  · exact habs.2 (hd ▸ h)

/-- Witness for C3: on the axis `[3,4,5]`, the query `7/2` sits exactly
halfway in `[3,4]` and resolves to the lower endpoint. -/
theorem nearest_interp_rounds_to_nearer_tie_lower_witness :
    nearestIndex [3, 4, 5] (7 / 2) = (findIndex [3, 4, 5] (7 / 2)).toNat :=
  (nearest_interp_rounds_to_nearer_tie_lower [3, 4, 5] (7 / 2) (by decide) (by decide)).1
    (by norm_num [normDistance, findIndex, searchsortedLeft])

/-- C4: for every grid whose axes each have at least two points, and
every grid point (given by its per-axis indices `js`) used as the
query, the nearest-neighbor interpolated value is exactly the discrete
sample stored for that grid point under the mapping's flattening
order. -/
theorem nearest_interp_exact_at_grid_points (axes : List (List ℚ)) (data : List ℚ)
    (ord : DataOrder) (js : List Nat) (hlen : js.length = axes.length)
    (h : ∀ p ∈ List.zip axes js,
      p.1.Pairwise (· < ·) ∧ 2 ≤ p.1.length ∧ p.2 < p.1.length) :
    interpNearest axes data ord (List.zipWith (fun ax j => ax.getD j 0) axes js) =
      data.getD (flatIndex ord (axes.map List.length) js) 0 := by
  simp only [interpNearest]
  rw [zipWith_nearestIndex_getD axes js hlen h]

/-- Witness for C4: the grid `[1,2] × [3,4,5]` queried at the point
with multi-index `(1,2)`, i.e. `(2,5)`, returns the stored sample. -/
theorem nearest_interp_exact_at_grid_points_witness :
    interpNearest [[1, 2], [3, 4, 5]] [10, 11, 12, 13, 14, 15] .C
        (List.zipWith (fun ax j => ax.getD j 0) [[1, 2], [3, 4, 5]] [1, 2]) =
      ([10, 11, 12, 13, 14, 15] : List ℚ).getD
        (flatIndex .C ([[1, 2], [3, 4, 5]].map List.length) [1, 2]) 0 :=
  nearest_interp_exact_at_grid_points [[1, 2], [3, 4, 5]] [10, 11, 12, 13, 14, 15]
    .C [1, 2] (by decide) (by decide)

/-- C5: a query strictly beyond the last coordinate of an axis selects
the same sample index as a query exactly at the last coordinate, the
selected index is in bounds (no out-of-bounds error), and the 1-D
interpolated values agree. -/
theorem nearest_interp_clamps_beyond_last_coord (grid data : List ℚ) (ord : DataOrder)
    (x : ℚ) (hpw : grid.Pairwise (· < ·)) (hlen : 2 ≤ grid.length)
    (hx : grid.getD (grid.length - 1) 0 < x) :
    nearestIndex grid x = nearestIndex grid (grid.getD (grid.length - 1) 0) ∧
    nearestIndex grid x < grid.length ∧
    interpNearest [grid] data ord [x] =
      interpNearest [grid] data ord [grid.getD (grid.length - 1) 0] := by
  have h1 := nearestIndex_of_gt_last grid hpw hlen hx
  have h2 := nearestIndex_getD grid hpw hlen (j := grid.length - 1) (by omega)
  refine ⟨by rw [h1, h2], by omega, ?_⟩
  have e1 : interpNearest [grid] data ord [x]
      = data.getD (flatIndex ord [grid.length] [nearestIndex grid x]) 0 := rfl
  have e2 : interpNearest [grid] data ord [grid.getD (grid.length - 1) 0]
      = data.getD (flatIndex ord [grid.length]
          [nearestIndex grid (grid.getD (grid.length - 1) 0)]) 0 := rfl
  rw [e1, e2, h1, h2]

/-- Witness for C5: the axis `[3,4,5]` queried at `10`, beyond the last
coordinate `5`. -/
theorem nearest_interp_clamps_beyond_last_coord_witness :
    nearestIndex [3, 4, 5] 10 =
      nearestIndex [3, 4, 5] (([3, 4, 5] : List ℚ).getD (([3, 4, 5] : List ℚ).length - 1) 0) ∧
    nearestIndex [3, 4, 5] 10 < ([3, 4, 5] : List ℚ).length ∧
    interpNearest [[3, 4, 5]] [10, 11, 12] .C [10] =
      interpNearest [[3, 4, 5]] [10, 11, 12] .C
        [([3, 4, 5] : List ℚ).getD (([3, 4, 5] : List ℚ).length - 1) 0] :=
  nearest_interp_clamps_beyond_last_coord [3, 4, 5] [10, 11, 12] .C 10
    (by decide) (by decide) (by decide)

/-- C10: for strictly ascending axes with at least two points each, the
bracketing search returns, for each axis, an index between `0` and
`length - 2`, so both bracket endpoints are in bounds and the
denominator `grid[i+1] - grid[i]` of the fractional distance is
strictly positive. -/
theorem find_indices_bracket_in_bounds (axes : List (List ℚ)) (query : List ℚ)
    (h : ∀ ax ∈ axes, ax.Pairwise (· < ·) ∧ 2 ≤ ax.length) (k : Nat)
    (hk : k < axes.length) (hkq : k < query.length) :
    (findIndices axes query).getD k 0 = findIndex (axes.getD k []) (query.getD k 0) ∧
    0 ≤ findIndex (axes.getD k []) (query.getD k 0) ∧
    (findIndex (axes.getD k []) (query.getD k 0)).toNat + 1 ≤ (axes.getD k []).length - 1 ∧
    (axes.getD k []).getD (findIndex (axes.getD k []) (query.getD k 0)).toNat 0 <
      (axes.getD k []).getD ((findIndex (axes.getD k []) (query.getD k 0)).toNat + 1) 0 := by
  have hmem : axes.getD k [] ∈ axes := by
    rw [List.getD_eq_getElem axes [] hk]
    exact List.getElem_mem hk
  obtain ⟨hpw, hl2⟩ := h _ hmem
  refine ⟨?_, (findIndex_bounds _ _ hl2).1, findIndex_toNat_le _ _ hl2,
    grid_step_pos _ hpw hl2 _⟩
  have hkz : k < (List.zipWith findIndex axes query).length := by
    rw [List.length_zipWith]
    omega
  simp only [findIndices]
  rw [List.getD_eq_getElem _ _ hkz, List.getElem_zipWith,
    List.getD_eq_getElem axes [] hk, List.getD_eq_getElem query 0 hkq]

/-- Witness for C10: the grid `[1,2] × [3,4,5]`, query `(5, 0)` (both
coordinates out of range), axis `k = 1`. -/
theorem find_indices_bracket_in_bounds_witness :
    (findIndices [[1, 2], [3, 4, 5]] [5, 0]).getD 1 0 =
      findIndex ([[1, 2], [3, 4, 5]].getD 1 []) (([5, 0] : List ℚ).getD 1 0) ∧
    0 ≤ findIndex ([[1, 2], [3, 4, 5]].getD 1 []) (([5, 0] : List ℚ).getD 1 0) ∧
    (findIndex ([[1, 2], [3, 4, 5]].getD 1 []) (([5, 0] : List ℚ).getD 1 0)).toNat + 1 ≤
      ([[1, 2], [3, 4, 5]].getD 1 ([] : List ℚ)).length - 1 ∧
    ([[1, 2], [3, 4, 5]].getD 1 ([] : List ℚ)).getD
        (findIndex ([[1, 2], [3, 4, 5]].getD 1 []) (([5, 0] : List ℚ).getD 1 0)).toNat 0 <
      ([[1, 2], [3, 4, 5]].getD 1 ([] : List ℚ)).getD
        ((findIndex ([[1, 2], [3, 4, 5]].getD 1 []) (([5, 0] : List ℚ).getD 1 0)).toNat + 1) 0 :=
  find_indices_bracket_in_bounds [[1, 2], [3, 4, 5]] [5, 0] (by decide) 1
    (by decide) (by decide)

/-- If the `fset` argument is not a `FunctionSet` instance,
`FunctionSetMapping.__init__` can never succeed (the isinstance check,
or an earlier one, raises). -/
theorem fsmInit_not_ok_of_not_function_set (mapType : String) (fset : FSetArg)
    (grid : GridArg) (dspace : DspaceArg) (order : String) (linear : Bool)
    (hf : fset.isFunctionSet = false) (m : Mapping) :
    fsmInit mapType fset grid dspace order linear ≠ Except.ok m := by
  intro h
  unfold fsmInit at h
  by_cases hc1 : ¬ (mapType.toLower = "restriction" ∨ mapType.toLower = "extension")
  · rw [if_pos hc1] at h
    exact Except.noConfusion h
  · rw [if_neg hc1] at h
    rw [if_pos (by simp [hf])] at h
    exact Except.noConfusion h

/-- C2 (code bug): the claim says the `LinearInterpolation` constructor
validates and returns the operator.  In the code it never returns one:
`super().__init__` receives `self` as an extra first positional
argument (discr_mappings.py:442), shifting all parameters, so
construction always fails — on the map-type check, or (were `str(self)`
ever one of the two map-type keywords) on the function-set isinstance
check, since the `fset` slot holds the string `'extension'`.  The
second half of the claim is faithful to the code: the evaluation entry
point `_call` raises `NotImplementedError` unconditionally.  The last
conjunct evaluates the constructor on a fully valid input. -/
theorem linear_interpolation_init_always_fails :
    (∀ (strSelf : String) (fspace : FSetArg) (grid : GridArg) (dspace : DspaceArg)
        (order : String) (m : Mapping),
        linearInterpolationInit strSelf fspace grid dspace order ≠ Except.ok m) ∧
    (∀ x : List ℚ, linearInterpolationCall x = Except.error PErr.notImplemented) ∧
    ∃ e, linearInterpolationInit "LinearInterpolation"
        ⟨true, true, true, [(1, 2), (3, 5)], .real⟩
        ⟨true, [[1, 2], [3, 4, 5]]⟩ ⟨true, true, 6, .real⟩ "C" = Except.error e := by
  have h1 : ∀ (strSelf : String) (fspace : FSetArg) (grid : GridArg) (dspace : DspaceArg)
      (order : String) (m : Mapping),
      linearInterpolationInit strSelf fspace grid dspace order ≠ Except.ok m := by
    intro strSelf fspace grid dspace order m h
    unfold linearInterpolationInit at h
    split_ifs at h
    exact fsmInit_not_ok_of_not_function_set _ _ _ _ _ _ rfl m h
  refine ⟨h1, fun x => rfl, ?_⟩
  cases hres : linearInterpolationInit "LinearInterpolation"
      ⟨true, true, true, [(1, 2), (3, 5)], .real⟩
      ⟨true, [[1, 2], [3, 4, 5]]⟩ ⟨true, true, 6, .real⟩ "C" with
  | error e => exact ⟨e, rfl⟩
  | ok m => exact absurd hres (h1 _ _ _ _ _ m)

/-- C6: construction of a grid discretization mapping checks its eight
preconditions eagerly in the fixed order of the spec's list; the first
violated one determines the raised error, and on failure no mapping
value is produced (the constructor's result is exactly the error).
`firstViolatedPrecondition` is the spec-side reading, `fsmInit` the
code-side one. -/
theorem fsm_init_first_violated_precondition_wins (mapType : String) (fset : FSetArg)
    (grid : GridArg) (dspace : DspaceArg) (order : String) (linear : Bool) :
    fsmInit mapType fset grid dspace order linear =
      outcomeOf (firstViolatedPrecondition mapType fset grid dspace order linear)
        (mkMapping mapType fset grid dspace order linear) ∧
    ((∃ m, fsmInit mapType fset grid dspace order linear = Except.ok m) ↔
      firstViolatedPrecondition mapType fset grid dspace order linear = none) := by
  have heq : fsmInit mapType fset grid dspace order linear =
      outcomeOf (firstViolatedPrecondition mapType fset grid dspace order linear)
        (mkMapping mapType fset grid dspace order linear) := by
    unfold fsmInit firstViolatedPrecondition
    by_cases hc1 : ¬ (mapType.toLower = "restriction" ∨ mapType.toLower = "extension")
    · rw [if_pos hc1, if_pos hc1]
      rfl
    · rw [if_neg hc1, if_neg hc1]
      by_cases hc2 : ¬ fset.isFunctionSet
      · rw [if_pos hc2, if_pos hc2]
        rfl
      · rw [if_neg hc2, if_neg hc2]
        by_cases hc3 : ¬ grid.isTensorGrid
        · rw [if_pos hc3, if_pos hc3]
          rfl
        · rw [if_neg hc3, if_neg hc3]
          by_cases hc4 : ¬ dspace.isNtuples
          · rw [if_pos hc4, if_pos hc4]
            rfl
          · rw [if_neg hc4, if_neg hc4]
            by_cases hc5 : ¬ containsSet fset.domain grid.axes
            · rw [if_pos hc5, if_pos hc5]
              rfl
            · rw [if_neg hc5, if_neg hc5]
              by_cases hc6 : ¬ dspace.size = gridNtotal grid.axes
              · rw [if_pos hc6, if_pos hc6]
                rfl
              · rw [if_neg hc6, if_neg hc6]
                by_cases hc7 : ¬ (order.toUpper = "C" ∨ order.toUpper = "F")
                · rw [if_pos hc7, if_pos hc7]
                  rfl
                · rw [if_neg hc7, if_neg hc7]
                  by_cases hc8 : linear ∧ ¬ fset.isFunctionSpace
                  · rw [if_pos hc8, if_pos hc8]
                    rfl
                  · rw [if_neg hc8, if_neg hc8]
                    by_cases hc9 : linear ∧ ¬ dspace.isFnBase
                    · rw [if_pos hc9, if_pos hc9]
                      rfl
                    · rw [if_neg hc9, if_neg hc9]
                      by_cases hc10 : linear ∧ ¬ fset.field = dspace.field
                      · rw [if_pos hc10, if_pos hc10]
                        rfl
                      · rw [if_neg hc10, if_neg hc10]
                        rfl
  refine ⟨heq, ?_⟩
  rw [heq]
  cases firstViolatedPrecondition mapType fset grid dspace order linear <;>
    simp [outcomeOf]

/-- C7: supplying both host data and a device pointer to `element`
fails (with the error the spec's taxonomy files under
`InvalidArgument`); constructing a space with dimension `0` or `-1`
fails likewise; with exactly one of the two supplied (or neither),
element construction succeeds — for the data path, under the spec's
own contract that the host sequence has length `n`. -/
theorem cuda_element_argument_validation :
    (∀ (s : CudaSpace) (d : List ℚ) (p : Nat),
        s.element (some d) (some p) =
          Except.error (PErr.typeError "Cannot provide both data and data_ptr")) ∧
    (∀ (cls : CudaClass) (dtype : CudaDtype),
        cudaENInit cls 0 dtype =
          Except.error (PErr.typeError "n has to be a positive integer") ∧
        cudaENInit cls (-1) dtype =
          Except.error (PErr.typeError "n has to be a positive integer")) ∧
    (∀ (s : CudaSpace) (p : Nat), ∃ v, s.element none (some p) = Except.ok v) ∧
    (∀ (s : CudaSpace) (d : List ℚ), d.length = s.n →
        ∃ v, s.element (some d) none = Except.ok v) := by
  refine ⟨fun s d p => rfl, fun cls dtype => ⟨rfl, rfl⟩, fun s p => ⟨_, rfl⟩, ?_⟩
  intro s d hd
  refine ⟨⟨s, .copied d⟩, ?_⟩
  simp [CudaSpace.element, hd]

/-- Witness for C7: a length-3 host array in `CudaEN(3)`. -/
theorem cuda_element_argument_validation_witness :
    ([1, 2, 3] : List ℚ).length = (⟨CudaClass.EN, 3, CudaDtype.float32⟩ : CudaSpace).n ∧
    ∃ v, (⟨CudaClass.EN, 3, CudaDtype.float32⟩ : CudaSpace).element (some [1, 2, 3]) none =
      Except.ok v :=
  ⟨by decide,
   cuda_element_argument_validation.2.2.2 ⟨CudaClass.EN, 3, CudaDtype.float32⟩ [1, 2, 3]
     (by decide)⟩

/-- C8 counterexample: `CudaRN(3)` and `CudaEN(3, float32)` have the
same dimension and the same scalar kind, yet `CudaRN.equals` rejects
the plain `CudaEN` (its `isinstance(other, CudaRN)` test fails), while
`CudaEN.equals` accepts the `CudaRN` — so the claimed "equal iff same
dimension and kind" and symmetry both fail across the class pair. -/
theorem cuda_equals_not_symmetric_across_classes :
    cudaRNInit 3 = Except.ok ⟨CudaClass.RN, 3, CudaDtype.float32⟩ ∧
    cudaENInit .EN 3 .float32 = Except.ok ⟨CudaClass.EN, 3, CudaDtype.float32⟩ ∧
    (⟨CudaClass.RN, 3, CudaDtype.float32⟩ : CudaSpace).n =
      (⟨CudaClass.EN, 3, CudaDtype.float32⟩ : CudaSpace).n ∧
    (⟨CudaClass.RN, 3, CudaDtype.float32⟩ : CudaSpace).dtype =
      (⟨CudaClass.EN, 3, CudaDtype.float32⟩ : CudaSpace).dtype ∧
    CudaSpace.equals ⟨CudaClass.RN, 3, CudaDtype.float32⟩
      ⟨CudaClass.EN, 3, CudaDtype.float32⟩ = false ∧
    CudaSpace.equals ⟨CudaClass.EN, 3, CudaDtype.float32⟩
      ⟨CudaClass.RN, 3, CudaDtype.float32⟩ = true :=
  ⟨rfl, rfl, rfl, rfl, rfl, rfl⟩

theorem decide_comm {α : Type} [DecidableEq α] (a b : α) :
    decide (a = b) = decide (b = a) := by
  by_cases h : a = b
  · simp [h]
  · simp [h, Ne.symm h]

/-- C8 amended: restricted to two spaces of the same concrete class
(both plain `CudaEN` or both `CudaRN`), the equality test returns true
iff the dimensions and scalar kinds agree, and it is structural and
symmetric; across the two classes a `CudaRN` never equals a plain
`CudaEN` even with matching dimension and kind. -/
theorem cuda_equals_structural_same_class (s t : CudaSpace) (hs : s.wf) (ht : t.wf)
    (hcls : s.cls = t.cls) :
    (s.equals t = true ↔ s.n = t.n ∧ s.dtype = t.dtype) ∧ s.equals t = t.equals s := by
  obtain ⟨c1, n1, d1⟩ := s
  obtain ⟨c2, n2, d2⟩ := t
  have hc : c1 = c2 := hcls
  subst hc
  cases c1 with
  | EN =>
    constructor
    · simp [CudaSpace.equals]
    · simp only [CudaSpace.equals]
      rw [decide_comm n2 n1, decide_comm d2 d1]
  | RN =>
    have hd1 : d1 = CudaDtype.float32 := hs rfl
    have hd2 : d2 = CudaDtype.float32 := ht rfl
    subst hd1
    subst hd2
    constructor
    · simp [CudaSpace.equals]
    · simp only [CudaSpace.equals]
      rw [decide_comm n2 n1]

/-- Witness for C8's amended claim: two `CudaRN(2)` instances. -/
theorem cuda_equals_structural_same_class_witness :
    ((⟨CudaClass.RN, 2, CudaDtype.float32⟩ : CudaSpace).equals
        ⟨CudaClass.RN, 2, CudaDtype.float32⟩ = true ↔
      (⟨CudaClass.RN, 2, CudaDtype.float32⟩ : CudaSpace).n =
        (⟨CudaClass.RN, 2, CudaDtype.float32⟩ : CudaSpace).n ∧
      (⟨CudaClass.RN, 2, CudaDtype.float32⟩ : CudaSpace).dtype =
        (⟨CudaClass.RN, 2, CudaDtype.float32⟩ : CudaSpace).dtype) ∧
    (⟨CudaClass.RN, 2, CudaDtype.float32⟩ : CudaSpace).equals
        ⟨CudaClass.RN, 2, CudaDtype.float32⟩ =
      (⟨CudaClass.RN, 2, CudaDtype.float32⟩ : CudaSpace).equals
        ⟨CudaClass.RN, 2, CudaDtype.float32⟩ :=
  cuda_equals_structural_same_class ⟨CudaClass.RN, 2, CudaDtype.float32⟩
    ⟨CudaClass.RN, 2, CudaDtype.float32⟩ (fun _ => rfl) (fun _ => rfl) rfl

/-- C9: the reported element byte size of a device vector is the
constant `4`, whatever the owning space (in particular for both the
32-bit-float and the 8-bit-unsigned scalar kinds) — the source returns
the literal `4`, "Currently hardcoded to float". -/
theorem cuda_itemsize_hardcoded_four (s : CudaSpace) (d : CudaVecData) :
    (CudaVec.mk s d).itemsize = 4 := rfl

/-- Witness for C2: the constructor rejects even a fully valid input
(function space over an interval product, matching grid and data
space). -/
theorem linear_interpolation_init_always_fails_witness :
    linearInterpolationInit "LinearInterpolation"
        ⟨true, true, true, [(1, 2), (3, 5)], .real⟩
        ⟨true, [[1, 2], [3, 4, 5]]⟩ ⟨true, true, 6, .real⟩ "C" ≠
      Except.ok (mkMapping "LinearInterpolation"
        ⟨true, true, true, [(1, 2), (3, 5)], .real⟩
        ⟨true, [[1, 2], [3, 4, 5]]⟩ ⟨true, true, 6, .real⟩ "C" true) :=
  linear_interpolation_init_always_fails.1 "LinearInterpolation"
    ⟨true, true, true, [(1, 2), (3, 5)], .real⟩
    ⟨true, [[1, 2], [3, 4, 5]]⟩ ⟨true, true, 6, .real⟩ "C" _

end ODL
